import Mathlib

/-!
Verification of the xlogger controller event-capture pipeline.

The definitions below are a shallow embedding of the capture code:

* `inner_writer_step` embeds the per-event body of `inner_writer_start`
  (src/gilrs_loop.rs, lines 103-204): the button press/release correlator
  keyed by gamepad id, the stick state tracker, and the old-event skip.
* `inner_writer_start` embeds the writer loop over a queue of events,
  together with an oracle of per-record serialize/flush outcomes
  (failures are logged and never alter control flow in that loop).
* `lib_listen_step` / `lib_listen_run` embed the older capture loop
  `listen_for_events` (src/lib.rs, lines 103-205), which differs: the map
  is keyed by button name, unknown axes still produce a record, old
  events panic via `expect`, and a flush failure propagates with `?`.
* `timestamp_string`, `button_csv_file_name`, `stick_csv_file_name`
  embed the file-name computation of `make_csv_writers`
  (src/gilrs_loop.rs, lines 259-275).
* `gel_listen_for_events` / `gel_stop_listening` embed the
  `GilrsEventLoop` state machine (src/gilrs_loop.rs, lines 221-257),
  with `thread::join` modelled sequentially: joining a thread runs its
  remaining shutdown code before the call returns.

Machine integers and clocks: `SystemTime` is modelled as nanoseconds
since the UNIX epoch as a `Nat`, so `SystemTime::UNIX_EPOCH` is `0` and
`duration_since` is truncated subtraction guarded by an order check.
Analog values (`f32`) are only ever copied, never computed with, so they
are modelled as `Int`.
-/

namespace Xlogger

/-- `std::time::SystemTime`, as nanoseconds since the UNIX epoch.
`SystemTime::UNIX_EPOCH` is `0`. -/
abbrev Time := Nat

/-- `SystemTime::duration_since`: `some (t - start)` when `start <= t`,
otherwise an error (`none`), mirroring `Err(SystemTimeError)`. -/
def durationSince (t start : Time) : Option Nat :=
  if start ≤ t then some (t - start) else none

/-- The gilrs `Axis` values the stick tracker distinguishes; every axis
other than the four stick axes falls into `other`. -/
inductive GAxis where
  | leftStickX
  | leftStickY
  | rightStickX
  | rightStickY
  | other (code : Nat)
  deriving DecidableEq, Repr

/-- The gilrs `EventType` constructors the writer loop distinguishes.
Buttons are identified by a numeric code standing for `gilrs::Button`. -/
inductive GEventType where
  | axisChanged (axis : GAxis) (value : Int)
  | buttonChanged (button : Nat) (value : Int)
  | otherEvent
  deriving DecidableEq, Repr

/-- A `gilrs::Event`: gamepad id, event payload, and timestamp. -/
structure GEvent where
  id : Nat
  event : GEventType
  time : Time
  deriving DecidableEq, Repr

/-- Association-list model of `HashMap` lookup (`HashMap::get`). -/
def lookupA : List (Nat × Time) → Nat → Option Time
  | [], _ => none
  | (k, v) :: rest, key => if k = key then some v else lookupA rest key

/-- Association-list model of `HashMap::insert` (replaces an existing key). -/
def insertA : List (Nat × Time) → Nat → Time → List (Nat × Time)
  | [], k, v => [(k, v)]
  | (k₀, v₀) :: rest, k, v =>
    if k₀ = k then (k, v) :: rest else (k₀, v₀) :: insertA rest k v

/-- Association-list model of `HashMap::remove` (drops the key if present). -/
def eraseA : List (Nat × Time) → Nat → List (Nat × Time)
  | [], _ => []
  | (k₀, v₀) :: rest, k => if k₀ = k then rest else (k₀, v₀) :: eraseA rest k

/-- `ControllerStickState` (src/lib.rs): last-known stick coordinates,
defaulting to `0`. -/
structure ControllerStickState where
  x : Int := 0
  y : Int := 0
  deriving DecidableEq, Repr

/-- `ControllerButtonEvent` (src/lib.rs): a completed press/release record.
Times are durations since the session start instant. -/
structure ControllerButtonEvent where
  pressTime : Nat
  releaseTime : Nat
  button : Nat
  deriving DecidableEq, Repr

/-- `ControllerStickEvent` (src/lib.rs): a full four-axis snapshot record. -/
structure ControllerStickEvent where
  time : Nat
  leftX : Int
  leftY : Int
  rightX : Int
  rightY : Int
  deriving DecidableEq, Repr

/-- The record (if any) an event produces for the CSV writers. -/
inductive OutRec where
  | noneRec
  | stickRec (r : ControllerStickEvent)
  | buttonRec (r : ControllerButtonEvent)
  deriving DecidableEq, Repr

/-- The writer-loop state of `inner_writer_start` (src/gilrs_loop.rs):
`time_map : HashMap<GamepadId, SystemTime>` plus the two stick states. -/
structure WriterState where
  timeMap : List (Nat × Time) := []
  leftStick : ControllerStickState := {}
  rightStick : ControllerStickState := {}
  deriving DecidableEq, Repr

/-- One iteration of the event match in `inner_writer_start`
(src/gilrs_loop.rs, lines 123-201). `startTime` is the session start
instant captured at loop entry; `now` is the value `SystemTime::now()`
would return if the release-without-press fallback is taken.

* Axis events update the named coordinate first, then skip (`continue`)
  old events whose `duration_since(start_time)` fails, else emit a
  four-axis snapshot; unhandled axes are logged and skipped.
* A button event with `value == 0` removes the pending press entry for
  the gamepad, defaults the press instant to `SystemTime::now()` when no
  entry exists, skips events whose press or release instant precedes the
  session start, and otherwise emits a `ControllerButtonEvent`.
* A button event with `value != 0` inserts the event time only when the
  stored entry is missing or equals `UNIX_EPOCH` (the sentinel in the
  `unwrap_or` comparison at lines 192-195). -/
def inner_writer_step (startTime now : Nat) (s : WriterState) (e : GEvent) :
    WriterState × OutRec :=
  match e.event with
  | .axisChanged axis value =>
    match axis with
    | .other _ => (s, .noneRec)
    | _ =>
      let s₁ :=
        match axis with
        | .leftStickX => { s with leftStick := { s.leftStick with x := value } }
        | .leftStickY => { s with leftStick := { s.leftStick with y := value } }
        | .rightStickX => { s with rightStick := { s.rightStick with x := value } }
        | .rightStickY => { s with rightStick := { s.rightStick with y := value } }
        | .other _ => s
      match durationSince e.time startTime with
      | none => (s₁, .noneRec)
      | some t =>
        (s₁, .stickRec { time := t, leftX := s₁.leftStick.x, leftY := s₁.leftStick.y,
                         rightX := s₁.rightStick.x, rightY := s₁.rightStick.y })
  | .buttonChanged button value =>
    if value = 0 then
      let downTime := (lookupA s.timeMap e.id).getD now
      let s₁ := { s with timeMap := eraseA s.timeMap e.id }
      if downTime < startTime ∨ e.time < startTime then (s₁, .noneRec)
      else
        (s₁, .buttonRec { pressTime := downTime - startTime,
                          releaseTime := e.time - startTime, button := button })
    else
      let mapTime := lookupA s.timeMap e.id
      if mapTime.getD 0 = 0 then
        ({ s with timeMap := insertA s.timeMap e.id e.time }, .noneRec)
      else (s, .noneRec)
  | .otherEvent => (s, .noneRec)

/-- State evolution of the writer loop over a queue of events, each paired
with the `SystemTime::now()` value observed if its fallback is taken. -/
def runEvents (startTime : Nat) (s : WriterState) : List (GEvent × Nat) → WriterState
  | [] => s
  | (e, now) :: rest => runEvents startTime (inner_writer_step startTime now s e).1 rest

/-- The rows that reach the CSV file for one record: a serialization
failure is logged and the record dropped; a flush failure is logged and
changes nothing else. -/
def emitted (serOk : Bool) (r : OutRec) : List OutRec :=
  match r with
  | .noneRec => []
  | r => if serOk then [r] else []

/-- The writer loop of `inner_writer_start` over a queue of events with an
oracle of per-record `(serialize ok, flush ok)` outcomes. Both failure
cases only log (src/gilrs_loop.rs, lines 148-159 and 178-189), so the
oracle never affects control flow or the correlator state. -/
def inner_writer_start (startTime : Nat) (s : WriterState) :
    List (GEvent × Nat) → List (Bool × Bool) → WriterState × List OutRec
  | [], _ => (s, [])
  | (e, now) :: rest, oracle =>
    let serOk := (oracle.headD (true, true)).1
    let p := inner_writer_step startTime now s e
    let q := inner_writer_start startTime p.1 rest oracle.tail
    (q.1, emitted serOk p.2 ++ q.2)

/-- The loop state of the older `listen_for_events` (src/lib.rs): the
press map there is keyed by the button name string `format!("{:?}", b)`,
which is in bijection with the button, so it is keyed here by the button
code; the gamepad id is ignored by that loop. -/
structure LibState where
  timeMap : List (Nat × Time) := []
  leftStick : ControllerStickState := {}
  rightStick : ControllerStickState := {}
  deriving DecidableEq, Repr

/-- How one iteration of `listen_for_events` (src/lib.rs) can abort:
`panicOld` is the `.expect("time went backwards!")` panic on an event
older than the session start; `ioFlush` is the `flush()?` propagation. -/
inductive LibErr where
  | panicOld
  | ioFlush
  deriving DecidableEq, Repr

/-- One iteration of the event match in `listen_for_events`
(src/lib.rs, lines 138-201). Differences from `inner_writer_step`:

* an unrecognized axis is logged but there is no `continue`, so the
  snapshot record is still built and written (lines 145-158);
* `duration_since(start_time)` failures panic via `expect` instead of
  skipping the event;
* `flush()?` propagates a flush failure out of the loop (lines 165, 189),
  while a serialization failure is only logged and drops the record. -/
def lib_listen_step (startTime now : Nat) (serOk flushOk : Bool) (s : LibState)
    (e : GEvent) : Except LibErr (LibState × List OutRec) :=
  match e.event with
  | .axisChanged axis value =>
    let s₁ :=
      match axis with
      | .leftStickX => { s with leftStick := { s.leftStick with x := value } }
      | .leftStickY => { s with leftStick := { s.leftStick with y := value } }
      | .rightStickX => { s with rightStick := { s.rightStick with x := value } }
      | .rightStickY => { s with rightStick := { s.rightStick with y := value } }
      | .other _ => s
    match durationSince e.time startTime with
    | none => .error .panicOld
    | some t =>
      let rec₁ : ControllerStickEvent :=
        { time := t, leftX := s₁.leftStick.x, leftY := s₁.leftStick.y,
          rightX := s₁.rightStick.x, rightY := s₁.rightStick.y }
      let written := if serOk then [OutRec.stickRec rec₁] else []
      if flushOk then .ok (s₁, written) else .error .ioFlush
  | .buttonChanged button value =>
    if value = 0 then
      let downTime := (lookupA s.timeMap button).getD now
      let s₁ := { s with timeMap := eraseA s.timeMap button }
      match durationSince downTime startTime, durationSince e.time startTime with
      | some p, some r =>
        let written := if serOk then
          [OutRec.buttonRec { pressTime := p, releaseTime := r, button := button }] else []
        if flushOk then .ok (s₁, written) else .error .ioFlush
      | _, _ => .error .panicOld
    else
      let mapTime := lookupA s.timeMap button
      if mapTime.getD 0 = 0 then
        .ok ({ s with timeMap := insertA s.timeMap button e.time }, [])
      else .ok (s, [])
  | .otherEvent => .ok (s, [])

/-- The loop of `listen_for_events` (src/lib.rs) over a queue of events,
each paired with its fallback `now` and its serialize/flush outcomes. An
`Except.error` outcome means the loop terminated at that event. -/
def lib_listen_run (startTime : Nat) (s : LibState) :
    List (GEvent × Nat × Bool × Bool) → Except LibErr (LibState × List OutRec)
  | [] => .ok (s, [])
  | (e, now, serOk, flushOk) :: rest =>
    match lib_listen_step startTime now serOk flushOk s e with
    | .error err => .error err
    | .ok (s₁, written) =>
      match lib_listen_run startTime s₁ rest with
      | .error err => .error err
      | .ok (s₂, rest₁) => .ok (s₂, written ++ rest₁)

/-- Two-digit zero padding, as the chrono format specifiers `%m`, `%d`,
`%H`, `%M`, `%S` produce. -/
def pad2 (n : Nat) : String :=
  if n < 10 then "0" ++ toString n else toString n

/-- Four-digit zero padding, as the chrono format specifier `%Y` produces. -/
def pad4 (n : Nat) : String :=
  if n < 10 then "000" ++ toString n
  else if n < 100 then "00" ++ toString n
  else if n < 1000 then "0" ++ toString n
  else toString n

/-- The `timestamp_string` of `make_csv_writers` (src/gilrs_loop.rs,
lines 262-265): the local time formatted with the chrono pattern
`%Y-%m-%d_%H-%M-%S.csv` — note the literal `.csv` inside the pattern. -/
def timestamp_string (y mo d h mi s : Nat) : String :=
  pad4 y ++ "-" ++ pad2 mo ++ "-" ++ pad2 d ++ "_" ++
    pad2 h ++ "-" ++ pad2 mi ++ "-" ++ pad2 s ++ ".csv"

/-- The button file name of `make_csv_writers` (src/gilrs_loop.rs,
line 268): `format!("{}buttons_{}.csv", prefix, timestamp_string)`. -/
def button_csv_file_name (pfx ts : String) : String :=
  pfx ++ "buttons_" ++ ts ++ ".csv"

/-- The stick file name of `make_csv_writers` (src/gilrs_loop.rs,
line 269): `format!("{}sticks_{}.csv", prefix, timestamp_string)`. -/
def stick_csv_file_name (pfx ts : String) : String :=
  pfx ++ "sticks_" ++ ts ++ ".csv"

/-- The modelled fields of the internal `WriterThread` helper
(src/gilrs_loop.rs, lines 49-101): whether its thread handle is present
(`thread_handle.is_some()`), and whether its CSV writers have been
flushed and released (which happens when the joined thread drops them). -/
structure WriterThread where
  running : Bool
  flushed : Bool
  deriving DecidableEq, Repr

/-- `WriterThread::stop` (src/gilrs_loop.rs, lines 87-95): a no-op when
the thread is not running; otherwise clears the run flag and joins, after
which the writer thread has dropped (hence flushed) its CSV writers. -/
def stop_writer (w : WriterThread) : WriterThread :=
  if w.running then { running := false, flushed := true } else w

/-- `GilrsEventLoopError` (src/gilrs_loop.rs, lines 206-209). -/
inductive GilrsEventLoopError where
  | noLoopHandle
  deriving DecidableEq, Repr

/-- The modelled state of `GilrsEventLoop` (src/gilrs_loop.rs) together
with its background loop: `loopHandle` is `loop_handle.is_some()`,
`shouldRun` the atomic flag, `spawns` counts `thread::spawn` calls, and
`writers` is the `writer_thread_map` owned by the background loop. -/
structure GELState where
  loopHandle : Bool
  shouldRun : Bool
  spawns : Nat
  writers : List WriterThread
  deriving DecidableEq, Repr

/-- `GilrsEventLoop::listen_for_events` (src/gilrs_loop.rs, lines
225-240): fails with `NoLoopHandle` when a loop handle already exists,
without spawning; otherwise sets the run flag, spawns the loop, and
stores its handle. -/
def gel_listen_for_events (s : GELState) :
    GELState × Option GilrsEventLoopError :=
  if s.loopHandle then (s, some .noLoopHandle)
  else ({ s with shouldRun := true, loopHandle := true, spawns := s.spawns + 1 },
        none)

/-- `GilrsEventLoop::stop_listening` (src/gilrs_loop.rs, lines 248-256):
returns immediately when no handle is present or `is_running()` is false;
otherwise clears the run flag and joins the loop thread. The join is
modelled sequentially: before the joined loop exits it runs its shutdown
code (src/gilrs_loop.rs, lines 305-309), which calls `WriterThread::stop`
on every writer in `writer_thread_map`. -/
def gel_stop_listening (s : GELState) : GELState :=
  if !s.loopHandle || !(s.loopHandle && s.shouldRun) then s
  else
    { s with shouldRun := false, loopHandle := false,
             writers := s.writers.map stop_writer }

/-- States of the modelled `GilrsEventLoop` reachable through its public
methods: while no loop thread exists (or it has been signalled and
joined), no writer thread is running, and a stored loop handle implies
the run flag is still set (the only place that clears it joins at once). -/
def gel_wf (s : GELState) : Prop :=
  (s.loopHandle = true → s.shouldRun = true) ∧
  (s.loopHandle = false → ∀ w ∈ s.writers, w.running = false)

theorem lookupA_insertA_self (m : List (Nat × Time)) (k v : Nat) :
    lookupA (insertA m k v) k = some v := by
  induction m with
  | nil => simp [insertA, lookupA]
  | cons p rest ih =>
    obtain ⟨k₀, v₀⟩ := p
    by_cases h : k₀ = k
    · simp [insertA, h, lookupA]
    · simp [insertA, h, lookupA, ih]

theorem press_step_insert (startTime now g b : Nat) (v : Int) (tE : Time)
    (s : WriterState) (hv : v ≠ 0) (h : (lookupA s.timeMap g).getD 0 = 0) :
    inner_writer_step startTime now s ⟨g, .buttonChanged b v, tE⟩ =
      ({ s with timeMap := insertA s.timeMap g tE }, .noneRec) := by
  simp [inner_writer_step, hv, h]

theorem press_step_skip (startTime now g b : Nat) (v : Int) (tE : Time)
    (s : WriterState) (hv : v ≠ 0) (h : (lookupA s.timeMap g).getD 0 ≠ 0) :
    inner_writer_step startTime now s ⟨g, .buttonChanged b v, tE⟩ = (s, .noneRec) := by
  simp [inner_writer_step, hv, h]

/-- An event that is a press (nonzero value) of button `b` on gamepad `g`. -/
def isPressOf (g b : Nat) (e : GEvent) : Prop :=
  e.id = g ∧ ∃ v : Int, v ≠ 0 ∧ e.event = .buttonChanged b v

theorem runEvents_press_preserve (startTime g b t₁ : Nat) (ht : t₁ ≠ 0)
    (es : List (GEvent × Nat)) :
    ∀ s : WriterState, (∀ p ∈ es, isPressOf g b p.1) →
      lookupA s.timeMap g = some t₁ →
      lookupA (runEvents startTime s es).timeMap g = some t₁ := by
  induction es with
  | nil => intro s _ hl; simpa [runEvents] using hl
  | cons p rest ih =>
    intro s hall hl
    obtain ⟨e, now⟩ := p
    obtain ⟨hid, v, hv, hev⟩ := hall _ (List.mem_cons_self _ _)
    obtain ⟨eid, eev, etime⟩ := e
    simp only at hid hev
    subst hid
    subst hev
    have hskip := press_step_skip startTime now eid b v etime s hv (by rw [hl]; exact ht)
    rw [runEvents, hskip]
    exact ih s (fun q hq => hall q (List.mem_cons_of_mem _ hq)) hl


/-- Claim C1 (corrected), counterexample: the claim fails when the first
press of the sequence carries the `UNIX_EPOCH` timestamp. The first press
(time `0`) establishes the stored press instant `0`, yet a second press of
the same button on the same gamepad, with no intervening release,
overwrites it with `5`: the sentinel comparison against `UNIX_EPOCH` in
`inner_writer_start` treats the stored epoch instant as absent. -/
theorem C1_repeated_press_epoch_cex :
    lookupA ((inner_writer_step 0 0 {} ⟨0, .buttonChanged 1 1, 0⟩).1).timeMap 0 =
      some 0 ∧
    lookupA ((inner_writer_step 0 0
        (inner_writer_step 0 0 {} ⟨0, .buttonChanged 1 1, 0⟩).1
        ⟨0, .buttonChanged 1 1, 5⟩).1).timeMap 0 = some 5 ∧
    some (5 : Nat) ≠ some 0 := by
  decide

/-- Claim C1 (amended): for a sequence of presses of the same button on the
same gamepad with no intervening release, starting with no pending entry,
the first press establishes the stored press instant and every subsequent
press leaves it unchanged, provided the first press's timestamp is not
`UNIX_EPOCH` (the sentinel the code uses for an absent entry). -/
theorem C1_press_idempotent (startTime now₁ g b : Nat) (v₁ : Int) (t₁ : Time)
    (s : WriterState) (hnone : lookupA s.timeMap g = none) (hv : v₁ ≠ 0)
    (ht : t₁ ≠ 0) (rest : List (GEvent × Nat))
    (hrest : ∀ p ∈ rest, isPressOf g b p.1) :
    lookupA ((inner_writer_step startTime now₁ s
        ⟨g, .buttonChanged b v₁, t₁⟩).1).timeMap g = some t₁ ∧
    lookupA (runEvents startTime
        (inner_writer_step startTime now₁ s ⟨g, .buttonChanged b v₁, t₁⟩).1
        rest).timeMap g = some t₁ := by
  have h0 : (lookupA s.timeMap g).getD 0 = 0 := by rw [hnone]; rfl
  have hstep := press_step_insert startTime now₁ g b v₁ t₁ s hv h0
  have h1 : lookupA ((inner_writer_step startTime now₁ s
      ⟨g, .buttonChanged b v₁, t₁⟩).1).timeMap g = some t₁ := by
    rw [hstep]
    exact lookupA_insertA_self s.timeMap g t₁
  exact ⟨h1, runEvents_press_preserve startTime g b t₁ ht rest _ hrest h1⟩

/-- Witness for `C1_press_idempotent` at a concrete input: first press of
button `1` on gamepad `0` at time `3`, then a held-press repeat at time
`8`; the stored press instant stays `3`. -/
theorem C1_press_idempotent_witness :
    lookupA ((inner_writer_step 0 0 {} ⟨0, .buttonChanged 1 1, 3⟩).1).timeMap 0 =
      some 3 ∧
    lookupA (runEvents 0 (inner_writer_step 0 0 {} ⟨0, .buttonChanged 1 1, 3⟩).1
        [(⟨0, .buttonChanged 1 2, 8⟩, 0)]).timeMap 0 = some 3 :=
  C1_press_idempotent 0 0 0 1 1 3 {} rfl (by decide) (by decide)
    [(⟨0, .buttonChanged 1 2, 8⟩, 0)]
    (by
      intro p hp
      simp only [List.mem_singleton] at hp
      subst hp
      exact ⟨rfl, 2, by decide, rfl⟩)

/-- Claim C2 (corrected), counterexample: a release of button `1` with no
pending press, carried by an event with timestamp `5`, processed when
`SystemTime::now()` is `10` (session start `0`), emits a record with
`press_time = 10` and `release_time = 5`: the fallback press instant is
the wall clock at processing time, not the release event's own time, so
the record is not zero-duration. -/
theorem C2_zero_duration_fallback_cex :
    (inner_writer_step 0 10 {} ⟨0, .buttonChanged 1 0, 5⟩).2 =
      .buttonRec ⟨10, 5, 1⟩ ∧ (10 : Nat) ≠ 5 := by
  decide

/-- Claim C2 (amended): a release event with no pending press entry for
its gamepad is not dropped and raises no error: it emits a record whose
`press_time` is the `SystemTime::now()` value observed at processing time
(relative to session start) and whose `release_time` is the event's own
time (relative to session start), provided neither instant precedes the
session start. The record is zero-duration only when the processing
instant coincides with the event's timestamp. -/
theorem C2_release_without_press (startTime now g b : Nat) (tE : Time)
    (s : WriterState) (hnone : lookupA s.timeMap g = none)
    (h₁ : startTime ≤ now) (h₂ : startTime ≤ tE) :
    inner_writer_step startTime now s ⟨g, .buttonChanged b 0, tE⟩ =
      ({ s with timeMap := eraseA s.timeMap g },
       .buttonRec ⟨now - startTime, tE - startTime, b⟩) := by
  simp [inner_writer_step, hnone, Nat.not_lt.mpr h₁, Nat.not_lt.mpr h₂]

/-- Witness for `C2_release_without_press`: session start `1`, release of
button `2` at event time `6` with no pending press, processed at wall
clock `4`; the emitted record is `{press_time := 3, release_time := 5}`. -/
theorem C2_release_without_press_witness :
    inner_writer_step 1 4 {} ⟨0, .buttonChanged 2 0, 6⟩ =
      ({}, .buttonRec ⟨3, 5, 2⟩) :=
  C2_release_without_press 1 4 0 2 6 {} rfl (by decide) (by decide)

/-- Claim C3 (corrected), counterexample: the release-without-press
fallback can emit a record with `release_time < press_time`. A release of
button `2` at event time `3`, processed when `SystemTime::now()` is `7`
(session start `0`), yields the record `{press_time := 7,
release_time := 3}`. -/
theorem C3_release_before_press_cex :
    (inner_writer_step 0 7 {} ⟨0, .buttonChanged 2 0, 3⟩).2 =
      .buttonRec ⟨7, 3, 2⟩ ∧
    ¬ ((⟨7, 3, 2⟩ : ControllerButtonEvent).releaseTime ≥
        (⟨7, 3, 2⟩ : ControllerButtonEvent).pressTime) := by
  decide

/-- Claim C3 (amended): every button record the writer step emits whose
press source (the pending press entry, or the wall-clock fallback when no
entry exists) does not exceed the release event's timestamp satisfies
`release_time >= press_time`; the fallback with a processing instant
later than the event's timestamp is the only way to violate it. -/
theorem C3_release_ge_press (startTime now g b : Nat) (tE : Time)
    (s : WriterState) (hord : (lookupA s.timeMap g).getD now ≤ tE) :
    ∀ r : ControllerButtonEvent,
      (inner_writer_step startTime now s ⟨g, .buttonChanged b 0, tE⟩).2 =
        .buttonRec r →
      r.releaseTime ≥ r.pressTime := by
  intro r hr
  by_cases hlt : (lookupA s.timeMap g).getD now < startTime ∨ tE < startTime
  · simp [inner_writer_step, hlt] at hr
  · simp [inner_writer_step, hlt] at hr
    rw [← hr]
    exact Nat.sub_le_sub_right hord startTime

/-- Witness for `C3_release_ge_press`: a release at event time `5` with no
pending press, processed at wall clock `3` (session start `0`), emits
`{press_time := 3, release_time := 5}`, and `5 ≥ 3`. -/
theorem C3_release_ge_press_witness :
    (⟨3, 5, 1⟩ : ControllerButtonEvent).releaseTime ≥
      (⟨3, 5, 1⟩ : ControllerButtonEvent).pressTime :=
  C3_release_ge_press 0 3 0 1 5 {} (by decide) ⟨3, 5, 1⟩ (by decide)

/-- Claim C4 (confirmed): for every recognized axis-change event (any of
the four tracked stick axes) whose timestamp is not before the session
start, the step updates exactly the named coordinate and emits a snapshot
record carrying the event's relative time, the new value, and the
unchanged last-known values of the other three coordinates. -/
theorem C4_axis_snapshot (startTime now g : Nat) (tE : Time) (v : Int)
    (s : WriterState) (h : startTime ≤ tE) :
    inner_writer_step startTime now s ⟨g, .axisChanged .leftStickX v, tE⟩ =
      ({ s with leftStick := { s.leftStick with x := v } },
       .stickRec ⟨tE - startTime, v, s.leftStick.y, s.rightStick.x,
         s.rightStick.y⟩) ∧
    inner_writer_step startTime now s ⟨g, .axisChanged .leftStickY v, tE⟩ =
      ({ s with leftStick := { s.leftStick with y := v } },
       .stickRec ⟨tE - startTime, s.leftStick.x, v, s.rightStick.x,
         s.rightStick.y⟩) ∧
    inner_writer_step startTime now s ⟨g, .axisChanged .rightStickX v, tE⟩ =
      ({ s with rightStick := { s.rightStick with x := v } },
       .stickRec ⟨tE - startTime, s.leftStick.x, s.leftStick.y, v,
         s.rightStick.y⟩) ∧
    inner_writer_step startTime now s ⟨g, .axisChanged .rightStickY v, tE⟩ =
      ({ s with rightStick := { s.rightStick with y := v } },
       .stickRec ⟨tE - startTime, s.leftStick.x, s.leftStick.y,
         s.rightStick.x, v⟩) := by
  refine ⟨?_, ?_, ?_, ?_⟩ <;> simp [inner_writer_step, durationSince, h]

/-- Witness for `C4_axis_snapshot`: a left-stick-x change to `9` at event
time `2` (session start `0`) sets only that coordinate and emits the
snapshot `{time := 2, left_x := 9, left_y := 0, right_x := 0,
right_y := 0}`. -/
theorem C4_axis_snapshot_witness :
    inner_writer_step 0 0 {} ⟨0, .axisChanged .leftStickX 9, 2⟩ =
      ({ leftStick := { x := 9 } }, .stickRec ⟨2, 9, 0, 0, 0⟩) :=
  (C4_axis_snapshot 0 0 0 2 9 {} (by decide)).1

/-- Claim C5 (corrected), counterexample: in `listen_for_events`
(src/lib.rs, lines 139-166) an axis-change event whose axis is not one of
the four tracked stick axes still produces a written stick record: the
unrecognized-axis arm only logs, without `continue`, so the snapshot of
the unchanged tracker state is serialized and flushed. -/
theorem C5_unknown_axis_lib_cex :
    lib_listen_step 0 0 true true {} ⟨0, .axisChanged (.other 9) 4, 2⟩ =
      .ok ({}, [OutRec.stickRec ⟨2, 0, 0, 0, 0⟩]) ∧
    [OutRec.stickRec ⟨2, 0, 0, 0, 0⟩] ≠ ([] : List OutRec) := by
  exact ⟨rfl, by decide⟩

/-- Claim C5 (amended): in the `inner_writer_start` writer loop
(src/gilrs_loop.rs, lines 130-133) an axis-change event with an
unrecognized axis is logged and ignored: the tracker state is unchanged
and no record is emitted; in the older `listen_for_events` loop
(src/lib.rs) the tracker state is likewise unchanged but a snapshot
record is still written. -/
theorem C5_unknown_axis_ignored (startTime now g c : Nat) (tE : Time)
    (v : Int) (s : WriterState) :
    inner_writer_step startTime now s ⟨g, .axisChanged (.other c) v, tE⟩ =
      (s, .noneRec) := by
  rfl

/-- Claim C6 (corrected), counterexample: in `listen_for_events`
(src/lib.rs, lines 165 and 189) a flush failure propagates through `?`
and terminates the capture loop: with a flush failure on the first of two
events, the run aborts with the error and the second event is never
processed. -/
theorem C6_flush_failure_lib_cex :
    lib_listen_run 0 {} [(⟨0, .axisChanged .leftStickX 1, 1⟩, 0, true, false),
        (⟨0, .axisChanged .leftStickX 2, 2⟩, 0, true, true)] =
      .error .ioFlush := by
  rfl

/-- Claim C6 (amended): in the `inner_writer_start` writer loop
(src/gilrs_loop.rs, lines 148-159 and 178-189) serialization and flush
failures are logged and only drop the failed record: the loop processes
every event and its final correlator and tracker state equals that of the
failure-free run, for every oracle of per-record outcomes. In the older
`listen_for_events` loop (src/lib.rs) a serialization failure is likewise
non-fatal, but a flush failure propagates and terminates the loop. -/
theorem C6_write_failure_nonfatal (startTime : Nat) (s : WriterState)
    (es : List (GEvent × Nat)) (oracle : List (Bool × Bool)) :
    (inner_writer_start startTime s es oracle).1 = runEvents startTime s es := by
  induction es generalizing s oracle with
  | nil => rfl
  | cons p rest ih =>
    obtain ⟨e, now⟩ := p
    simp [inner_writer_start, runEvents, ih]

/-- Claim C7 (code bug): the chrono pattern in `make_csv_writers` already
ends in a literal `.csv` and the surrounding `format!` appends `.csv`
again, so both session files are created with a doubled `.csv.csv`
suffix instead of exactly one `.csv` suffix. Evaluated at the prefix
`Controller_0_` and the local time 2024-01-02 03:04:05. -/
theorem C7_double_csv_suffix :
    button_csv_file_name "Controller_0_" (timestamp_string 2024 1 2 3 4 5) =
      "Controller_0_buttons_2024-01-02_03-04-05.csv.csv" ∧
    stick_csv_file_name "Controller_0_" (timestamp_string 2024 1 2 3 4 5) =
      "Controller_0_sticks_2024-01-02_03-04-05.csv.csv" := by
  exact ⟨rfl, rfl⟩

/-- Claim C8 (confirmed): `GilrsEventLoop::listen_for_events` fails with
an error and spawns nothing when a background loop handle already exists,
leaving the state untouched; otherwise it sets the run flag, spawns
exactly one polling loop, stores its handle, and returns success. -/
theorem C8_listen_guard (s : GELState) :
    (s.loopHandle = true →
      gel_listen_for_events s = (s, some GilrsEventLoopError.noLoopHandle)) ∧
    (s.loopHandle = false →
      gel_listen_for_events s =
        ({ s with shouldRun := true, loopHandle := true,
                  spawns := s.spawns + 1 }, none)) := by
  constructor <;> intro h <;> simp [gel_listen_for_events, h]

/-- Witness for `C8_listen_guard`: starting while already listening fails
without spawning; starting while idle spawns one loop and succeeds. -/
theorem C8_listen_guard_witness :
    gel_listen_for_events ⟨true, true, 1, []⟩ =
      (⟨true, true, 1, []⟩, some GilrsEventLoopError.noLoopHandle) ∧
    gel_listen_for_events ⟨false, false, 0, []⟩ = (⟨true, true, 1, []⟩, none) :=
  ⟨(C8_listen_guard ⟨true, true, 1, []⟩).1 rfl,
   (C8_listen_guard ⟨false, false, 0, []⟩).2 rfl⟩

/-- Claim C9 (confirmed): on every reachable state, after
`stop_listening` returns the background loop has been joined (no loop
handle remains), every session writer thread has been stopped, and every
writer that was running has had its files flushed and released — so no
further writes can occur once the call returns. The join is modelled
sequentially: the joined loop runs its shutdown code, which stops each
writer, before `stop_listening` returns. -/
theorem C9_stop_listening_quiesces (s : GELState) (h : gel_wf s) :
    (gel_stop_listening s).loopHandle = false ∧
    (∀ w ∈ (gel_stop_listening s).writers, w.running = false) ∧
    List.Forall₂ (fun w w₁ => w.running = true → w₁.flushed = true)
      s.writers (gel_stop_listening s).writers := by
  obtain ⟨h₁, h₂⟩ := h
  cases hL : s.loopHandle with
  | false =>
    have hs : gel_stop_listening s = s := by simp [gel_stop_listening, hL]
    rw [hs]
    refine ⟨hL, h₂ hL, ?_⟩
    rw [List.forall₂_same]
    intro w hw hrun
    exact absurd hrun (by simp [h₂ hL w hw])
  | true =>
    have hR := h₁ hL
    have hs : gel_stop_listening s =
        { s with shouldRun := false, loopHandle := false,
                 writers := s.writers.map stop_writer } := by
      simp [gel_stop_listening, hL, hR]
    rw [hs]
    refine ⟨rfl, ?_, ?_⟩
    · intro w hw
      rw [List.mem_map] at hw
      obtain ⟨w₀, _, rfl⟩ := hw
      by_cases hr : w₀.running <;> simp [stop_writer, hr]
    · rw [List.forall₂_map_right_iff, List.forall₂_same]
      intro w hw hrun
      simp [stop_writer, hrun]

/-- Witness for `C9_stop_listening_quiesces`: stopping a listening state
with one running, unflushed writer joins the loop, stops the writer, and
flushes its files. -/
theorem C9_stop_listening_quiesces_witness :
    (gel_stop_listening ⟨true, true, 2, [⟨true, false⟩]⟩).loopHandle = false ∧
    (∀ w ∈ (gel_stop_listening ⟨true, true, 2, [⟨true, false⟩]⟩).writers,
      w.running = false) ∧
    List.Forall₂ (fun w w₁ => w.running = true → w₁.flushed = true)
      [(⟨true, false⟩ : WriterThread)]
      (gel_stop_listening ⟨true, true, 2, [⟨true, false⟩]⟩).writers :=
  C9_stop_listening_quiesces ⟨true, true, 2, [⟨true, false⟩]⟩ (by simp [gel_wf])

/-- Claim C10 (confirmed): in the `inner_writer_start` writer loop, any
button or axis event whose own timestamp precedes the session start
produces no record, and a release whose pending press instant (or
wall-clock fallback) precedes the session start likewise produces no
record — the event is skipped rather than emitted or treated as an
error. -/
theorem C10_old_events_skipped (startTime now g b : Nat) (tE : Time)
    (s : WriterState) (e : GEvent) :
    (e.time < startTime → (inner_writer_step startTime now s e).2 = .noneRec) ∧
    ((lookupA s.timeMap g).getD now < startTime →
      (inner_writer_step startTime now s ⟨g, .buttonChanged b 0, tE⟩).2 =
        .noneRec) := by
  constructor
  · intro hOld
    obtain ⟨gid, ev, t⟩ := e
    simp only at hOld
    cases ev with
    | axisChanged axis v =>
      cases axis <;> simp [inner_writer_step, durationSince, Nat.not_le.mpr hOld]
    | buttonChanged bb v =>
      by_cases hv : v = 0
      · subst hv
        simp [inner_writer_step, hOld]
      · by_cases h0 : (lookupA s.timeMap gid).getD 0 = 0 <;>
          simp [inner_writer_step, hv, h0]
    | otherEvent => rfl
  · intro hPend
    simp [inner_writer_step, hPend]

/-- Witness for `C10_old_events_skipped`: with session start `5`, an axis
event stamped `2` produces no record, and a release stamped `9` whose
pending press instant is `3` produces no record either. -/
theorem C10_old_events_skipped_witness :
    (inner_writer_step 5 0 {} ⟨0, .axisChanged .leftStickX 1, 2⟩).2 =
      OutRec.noneRec ∧
    (inner_writer_step 5 0 ⟨[(0, 3)], {}, {}⟩ ⟨0, .buttonChanged 1 0, 9⟩).2 =
      OutRec.noneRec :=
  ⟨(C10_old_events_skipped 5 0 0 1 9 {} ⟨0, .axisChanged .leftStickX 1, 2⟩).1
      (by decide),
   (C10_old_events_skipped 5 0 0 1 9 ⟨[(0, 3)], {}, {}⟩
      ⟨0, .axisChanged .leftStickX 1, 2⟩).2 (by decide)⟩

end Xlogger
